import Mathlib

/-!
Shallow embedding of the moderation bot implemented in `api/webhook.js`:
an anonymous-submission relay with per-user rate limiting, a ban set, a
pending-submission store keyed by `msgId_userId`, moderator approve /
reject / edit callback actions, an external speech-to-text adapter, and
outcome counters.  JavaScript `Map` / `Set` state is modelled by
association lists, JS truthiness of strings by an explicit empty-string
test, and the webhook's outbound Telegram calls by an `Out` effect list.
-/

/-- Configuration read from the environment: the public channel identifier
(`CHANNEL_ID`) and the moderator identifier (`ADMIN_ID`). -/
structure Config where
  channelId : Int
  adminId : Int
deriving DecidableEq, Repr

/-- The closed set of submission kinds handled by the bot
(`text / photo / video / document / voice`). -/
inductive Kind
  | text
  | photo
  | video
  | document
  | voice
deriving DecidableEq, Repr

/-- A pending submission as stored in the `pending` map:
`{type, fileId, caption, voiceText}`.  `fileId` is `null` for text and
`voiceText` is `null` except for voice submissions or after a moderator
edit. -/
structure Submission where
  type : Kind
  fileId : Option String
  caption : String
  voiceText : Option String
deriving DecidableEq, Repr

/-- The `stats` record: `{ total, published, rejected }`. -/
structure Stats where
  total : Nat
  published : Nat
  rejected : Nat
deriving DecidableEq, Repr

/-- The `bot.ctx.awaitEdit` record holding the key being edited and the
location of the moderator-facing message to rewrite in place. -/
structure AwaitEdit where
  key : String
  chatId : Int
  msgId : Nat
deriving DecidableEq, Repr

/-- The whole mutable state of the webhook module: the `pending` map, the
`cooldown` map, the `banned` set, the `stats` counters and the optional
`awaitEdit` session. -/
structure State where
  pending : List (String × Submission)
  cooldown : List (Int × Nat)
  banned : List Int
  stats : Stats
  awaitEdit : Option AwaitEdit
deriving DecidableEq, Repr

/-- Lookup in an association list, modelling `Map.prototype.get`. -/
def mget {κ α : Type} [DecidableEq κ] (m : List (κ × α)) (k : κ) : Option α :=
  match m with
  | [] => none
  | (k', v) :: rest => if k' = k then some v else mget rest k

/-- Insert-or-overwrite in an association list, modelling
`Map.prototype.set`. -/
def mset {κ α : Type} [DecidableEq κ] (m : List (κ × α)) (k : κ) (v : α) :
    List (κ × α) :=
  match m with
  | [] => [(k, v)]
  | (k', v') :: rest => if k' = k then (k, v) :: rest else (k', v') :: mset rest k v

/-- Deletion from an association list, modelling `Map.prototype.delete`. -/
def mdel {κ α : Type} [DecidableEq κ] (m : List (κ × α)) (k : κ) :
    List (κ × α) :=
  match m with
  | [] => []
  | (k', v') :: rest => if k' = k then mdel rest k else (k', v') :: mdel rest k

/-- Membership in the `banned` set (`Set.prototype.has`). -/
def sHas (s : List Int) (x : Int) : Bool :=
  match s with
  | [] => false
  | y :: rest => if y = x then true else sHas rest x

/-- JS truthiness fallback `a || b` where `a` is a possibly-null string:
`null` and the empty string are falsy. -/
def jsOr (a : Option String) (b : String) : String :=
  match a with
  | some s => if s = "" then b else s
  | none => b

/-- JS truthiness fallback `a || b` on plain strings: the empty string is
falsy. -/
def jsOrS (a b : String) : String :=
  if a = "" then b else a

/-- Outbound transport effects emitted by the handlers.  Button lists carry
the raw callback-data payloads.  `sendMessage` carries an optional text
because the source can pass a `null` field (`p.voiceText`) straight to the
transport. -/
inductive Out
  | reply (text : String)
  | sendMessage (chatId : Int) (text : Option String) (buttons : List String)
  | sendPhoto (chatId : Int) (fileId : Option String) (caption : String) (buttons : List String)
  | sendVideo (chatId : Int) (fileId : Option String) (caption : String) (buttons : List String)
  | sendDocument (chatId : Int) (fileId : Option String) (caption : String) (buttons : List String)
  | sendVoice (chatId : Int) (fileId : Option String)
  | answerCbQuery (text : String)
  | clearMarkup
  | editMessageText (chatId : Int) (msgId : Nat) (text : String) (buttons : List String)
deriving DecidableEq, Repr

/-- The rate-limit window `RATE_LIMIT_MS = 5000`. -/
def RATE_LIMIT_MS : Nat := 5000

/-- Whether an identity equals the configured moderator (`isAdmin`). -/
def isAdmin (cfg : Config) (id : Int) : Bool :=
  id = cfg.adminId

/-- The rate limiter `isCool`.  The source reads
`if (last && now - last < RATE_LIMIT_MS) return false;` — so a recorded
timestamp of `0` is falsy and treated like no record — and otherwise does
`cooldown.set(id, now); return true;`.  The returned map is the updated
`cooldown` state. -/
def isCool (cool : List (Int × Nat)) (id : Int) (now : Nat) :
    Bool × List (Int × Nat) :=
  match mget cool id with
  | some last =>
      if last ≠ 0 ∧ now - last < RATE_LIMIT_MS then (false, cool)
      else (true, mset cool id now)
  | none => (true, mset cool id now)

/-- The submission key `` `${userMsgId}_${userId}` ``. -/
def mkKey (userMsgId : Nat) (userId : Int) : String :=
  toString userMsgId ++ "_" ++ toString userId

/-- The three-button moderator keyboard `pub_/rej_/edit_` built in
`forwardToAdmin`. -/
def kb3 (key : String) : List String :=
  ["pub_" ++ key, "rej_" ++ key, "edit_" ++ key]

/-- The header string built in `forwardToAdmin`; the transcript and caption
lines are appended only when the corresponding value is truthy. -/
def header (key : String) (voiceText : Option String) (caption : String) :
    String :=
  let h0 := "Новая мысль #id" ++ key ++ ":\n\n"
  let h1 :=
    match voiceText with
    | some v => if v = "" then h0 else h0 ++ "🎙 Расшифровка: " ++ v ++ "\n\n"
    | none => h0
  if caption = "" then h1 else h1 ++ "Подпись: " ++ caption ++ "\n\n"

/-- The intake helper `forwardToAdmin`: send the kind-appropriate moderator
notification carrying the approve/reject/edit keyboard, then store the
submission under its key (overwriting any colliding entry). -/
def forwardToAdmin (cfg : Config) (st : State) (type : Kind)
    (fileId : Option String) (caption : String) (userMsgId : Nat)
    (userId : Int) (voiceText : Option String) : State × List Out :=
  let key := mkKey userMsgId userId
  let h := header key voiceText caption
  let outs :=
    match type with
    | Kind.text => [Out.sendMessage cfg.adminId (some h) (kb3 key)]
    | Kind.photo => [Out.sendPhoto cfg.adminId fileId h (kb3 key)]
    | Kind.video => [Out.sendVideo cfg.adminId fileId h (kb3 key)]
    | Kind.document => [Out.sendDocument cfg.adminId fileId h (kb3 key)]
    | Kind.voice =>
        [Out.sendMessage cfg.adminId (some (h ++ "(голосовое ниже)")) (kb3 key),
         Out.sendVoice cfg.adminId fileId]
  ({ st with pending := mset st.pending key ⟨type, fileId, caption, voiceText⟩ },
   outs)

/-- The acknowledgement sent to every accepted submitter. -/
def thanksText : String :=
  "Спасибо, что поделился! В скором времени твоя мысль появится на канале."

/-- The first `bot.on('text')` handler: acknowledge and forward the text as
a new submission (no `awaitEdit` logic). -/
def textHandler (cfg : Config) (st : State) (fromId : Int) (msgId : Nat)
    (t : String) : State × List Out :=
  let (st', outs) := forwardToAdmin cfg st Kind.text none t msgId fromId none
  (st', Out.reply thanksText :: outs)

/-- The `bot.on('photo')` handler; the caption defaults to the empty string
(`ctx.message.caption || ''`). -/
def photoHandler (cfg : Config) (st : State) (fromId : Int) (msgId : Nat)
    (fileId : String) (cap : Option String) : State × List Out :=
  let (st', outs) :=
    forwardToAdmin cfg st Kind.photo (some fileId) (jsOr cap "") msgId fromId none
  (st', Out.reply thanksText :: outs)

/-- The `bot.on('video')` handler. -/
def videoHandler (cfg : Config) (st : State) (fromId : Int) (msgId : Nat)
    (fileId : String) (cap : Option String) : State × List Out :=
  let (st', outs) :=
    forwardToAdmin cfg st Kind.video (some fileId) (jsOr cap "") msgId fromId none
  (st', Out.reply thanksText :: outs)

/-- The `bot.on('document')` handler. -/
def documentHandler (cfg : Config) (st : State) (fromId : Int) (msgId : Nat)
    (fileId : String) (cap : Option String) : State × List Out :=
  let (st', outs) :=
    forwardToAdmin cfg st Kind.document (some fileId) (jsOr cap "") msgId fromId none
  (st', Out.reply thanksText :: outs)

/-- One polling response from the speech-to-text provider: whether
`info.status === 'parsed'` and the (possibly null or empty)
`info.parsed_content`. -/
structure PollInfo where
  parsed : Bool
  parsed_content : Option String

/-- Behaviour of the speech-to-text provider across one `stt` call.
`throws`: some step of the upload/parse protocol throws (network error or
malformed response) and lands in the single `catch`.  `responds`: every
request succeeds and `infoAt i` is the response to the `i`-th poll of the
`for (let i = 0; i < 20; i++)` loop. -/
inductive SttBehavior
  | throws
  | responds (infoAt : Nat → PollInfo)

/-- The polling loop of `stt`: up to `fuel` polls starting at index `i`;
on the first `parsed` response return `info.parsed_content || '<пусто>'`,
otherwise fall out of the loop with `text = ''` (each miss sleeps 1000 ms
in the source — a fixed backoff with no state effect). -/
def sttLoop (infoAt : Nat → PollInfo) : Nat → Nat → String
  | _, 0 => ""
  | i, fuel + 1 =>
      let info := infoAt i
      if info.parsed then jsOr info.parsed_content "<пусто>"
      else sttLoop infoAt (i + 1) fuel

/-- The `stt` adapter.  The whole body is wrapped in `try/catch`: any
provider failure resolves to the sentinel `'<ошибка распознавания>'`; a
completed loop returns `text || '<не распознано>'`.  Totality of this
definition mirrors the catch-all — `stt` never throws. -/
def stt (b : SttBehavior) : String :=
  match b with
  | SttBehavior.throws => "<ошибка распознавания>"
  | SttBehavior.responds infoAt => jsOrS (sttLoop infoAt 0 20) "<не распознано>"

/-- The `bot.on('voice')` handler: acknowledge, transcribe synchronously
through `stt`, acknowledge again, then forward with the transcription as
`voiceText`. -/
def voiceHandler (cfg : Config) (st : State) (fromId : Int) (msgId : Nat)
    (fileId : String) (cap : Option String) (b : SttBehavior) :
    State × List Out :=
  let voiceText := stt b
  let (st', outs) :=
    forwardToAdmin cfg st Kind.voice (some fileId) (jsOr cap "") msgId fromId
      (some voiceText)
  (st', Out.reply "🎙 Расшифровываю голос..." :: Out.reply thanksText :: outs)

/-- The channel delivery performed inside the `try` of the `pub_` action:
text sends `p.voiceText || p.caption`, media kinds send the file with
`p.caption` (ignoring `voiceText`), voice sends `p.voiceText` as-is. -/
def publishOuts (cfg : Config) (p : Submission) : List Out :=
  match p.type with
  | Kind.text => [Out.sendMessage cfg.channelId (some (jsOr p.voiceText p.caption)) []]
  | Kind.photo => [Out.sendPhoto cfg.channelId p.fileId p.caption []]
  | Kind.video => [Out.sendVideo cfg.channelId p.fileId p.caption []]
  | Kind.document => [Out.sendDocument cfg.channelId p.fileId p.caption []]
  | Kind.voice => [Out.sendMessage cfg.channelId p.voiceText []]

/-- The `bot.action(/^pub_(.+)/)` handler.  `deliverOk` models whether the
channel send inside the `try` succeeds; on failure nothing is delivered and
control jumps to the `catch`, which only answers the callback — the store
and both counters are untouched.  On success `stats.published++` runs
inside the `try`, then the key is deleted and `stats.total++` runs. -/
def pubAction (cfg : Config) (deliverOk : Bool) (st : State) (fromId : Int)
    (key : String) : State × List Out :=
  if isAdmin cfg fromId then
    match mget st.pending key with
    | none => (st, [Out.answerCbQuery "Устарело"])
    | some p =>
        if deliverOk then
          ({ st with
              pending := mdel st.pending key,
              stats := { st.stats with
                          published := st.stats.published + 1,
                          total := st.stats.total + 1 } },
           publishOuts cfg p ++ [Out.answerCbQuery "✅ Опубликовано", Out.clearMarkup])
        else (st, [Out.answerCbQuery "Ошибка публикации"])
  else (st, [Out.answerCbQuery "Нет прав"])

/-- The `bot.action(/^rej_(.+)/)` handler: after the admin check it deletes
the key and increments `stats.rejected` unconditionally — there is no
presence check and no stale answer. -/
def rejAction (cfg : Config) (st : State) (fromId : Int) (key : String) :
    State × List Out :=
  if isAdmin cfg fromId then
    ({ st with
        pending := mdel st.pending key,
        stats := { st.stats with rejected := st.stats.rejected + 1 } },
     [Out.answerCbQuery "❌ Отклонено", Out.clearMarkup])
  else (st, [Out.answerCbQuery "Нет прав"])

/-- The `bot.action(/^edit_(.+)/)` handler: stale if the key is absent,
otherwise open (or silently replace) the `awaitEdit` session. -/
def editAction (cfg : Config) (st : State) (fromId : Int) (chatId : Int)
    (cbMsgId : Nat) (key : String) : State × List Out :=
  if isAdmin cfg fromId then
    match mget st.pending key with
    | none => (st, [Out.answerCbQuery "Устарело"])
    | some _ =>
        ({ st with awaitEdit := some ⟨key, chatId, cbMsgId⟩ },
         [Out.answerCbQuery "Отправьте исправленный текст одним сообщением."])
  else (st, [Out.answerCbQuery "Нет прав"])

/-- The second `bot.on('text')` handler.  With an open session and a
message in the admin chat: if the submission is gone the handler just
returns (`if (!p) return;`) — the session is NOT cleared; otherwise it
overwrites `voiceText`, rewrites the moderator message with fresh
approve/reject buttons and deletes the session.  In every other case it
falls through to ordinary text intake. -/
def textEditHandler (cfg : Config) (st : State) (chatId : Int) (fromId : Int)
    (msgId : Nat) (t : String) : State × List Out :=
  match st.awaitEdit with
  | some ae =>
      if chatId = cfg.adminId then
        match mget st.pending ae.key with
        | none => (st, [])
        | some p =>
            ({ st with
                pending := mset st.pending ae.key { p with voiceText := some t },
                awaitEdit := none },
             [Out.editMessageText ae.chatId ae.msgId
                ("✏️ Исправлено:\n\n" ++ t)
                ["pub_" ++ ae.key, "rej_" ++ ae.key]])
      else textHandler cfg st fromId msgId t
  | none => textHandler cfg st fromId msgId t

/-- The `bot.command('stats')` handler: report published, rejected and the
size of the ban set (the `total` counter is not displayed). -/
def statsCommand (cfg : Config) (st : State) (fromId : Int) : List Out :=
  if isAdmin cfg fromId then
    [Out.reply ("📊 Статистика:\nОпубликовано: " ++ toString st.stats.published ++
      "\nОтклонено: " ++ toString st.stats.rejected ++
      "\nВ бане: " ++ toString st.banned.length)]
  else []

/-- Payload of an inbound Telegram message event.  A voice message carries
the provider behaviour its transcription will observe. -/
inductive MsgContent
  | text (t : String)
  | photo (fileId : String) (cap : Option String)
  | video (fileId : String) (cap : Option String)
  | document (fileId : String) (cap : Option String)
  | voice (fileId : String) (cap : Option String) (b : SttBehavior)

/-- Character-level prefix test (first argument is the pattern), used to
model the anchored regexes `^pub_ / ^rej_ / ^edit_` and the command
matcher. -/
def startsWithChars : List Char → List Char → Bool
  | [], _ => true
  | _ :: _, [] => false
  | c :: cs, d :: ds => c = d && startsWithChars cs ds

/-- Whether the string `s` starts with the pattern `pre`. -/
def strStartsWith (s pre : String) : Bool :=
  startsWithChars pre.data s.data

/-- Whether a message matches the `bot.start` command composer
(`/start`, optionally followed by arguments). -/
def isStartCmd : MsgContent → Bool
  | MsgContent.text t => t = "/start" || strStartsWith t "/start "
  | _ => false

/-- Dispatch of a gated message to the first matching content handler in
registration order.  The first `bot.on('text')` handler is registered
before the `awaitEdit` one and never calls `next()`, so it receives every
text message. -/
def dispatchContent (cfg : Config) (st : State) (fromId : Int) (msgId : Nat) :
    MsgContent → State × List Out
  | MsgContent.text t => textHandler cfg st fromId msgId t
  | MsgContent.photo f cap => photoHandler cfg st fromId msgId f cap
  | MsgContent.video f cap => videoHandler cfg st fromId msgId f cap
  | MsgContent.document f cap => documentHandler cfg st fromId msgId f cap
  | MsgContent.voice f cap b => voiceHandler cfg st fromId msgId f cap b

/-- Processing of one inbound message update through the registered
middleware chain: `bot.start` (registered before the gate), then the
`bot.use` gate — banned senders are silently dropped, rate-limited senders
get the cooldown notice — then the content handlers. -/
def handleMessage (cfg : Config) (st : State) (fromId : Int) (chatId : Int)
    (msgId : Nat) (now : Nat) (c : MsgContent) : State × List Out :=
  if isStartCmd c then
    (st, [Out.reply "Присылай мысль – текст, фото, видео или голос!"])
  else if sHas st.banned fromId then (st, [])
  else
    let ic := isCool st.cooldown fromId now
    if ic.1 then dispatchContent cfg { st with cooldown := ic.2 } fromId msgId c
    else (st, [Out.reply "⏎ Подождите 5 сек."])

/-- Processing of one callback-query update: the gate passes non-message
updates through, no `bot.on` handler matches them, and the `bot.action`
regexes `^pub_(.+)`, `^rej_(.+)`, `^edit_(.+)` are tried in registration
order. -/
def handleCallback (cfg : Config) (st : State) (fromId : Int) (chatId : Int)
    (cbMsgId : Nat) (deliverOk : Bool) (data : String) : State × List Out :=
  if strStartsWith data "pub_" ∧ 4 < data.length then
    pubAction cfg deliverOk st fromId (data.drop 4)
  else if strStartsWith data "rej_" ∧ 4 < data.length then
    rejAction cfg st fromId (data.drop 4)
  else if strStartsWith data "edit_" ∧ 5 < data.length then
    editAction cfg st fromId chatId cbMsgId (data.drop 5)
  else (st, [])

/-- An inbound webhook update: a message (with the wall-clock time the gate
will observe) or a callback query (with the fate of its channel delivery). -/
inductive Update
  | message (fromId : Int) (chatId : Int) (msgId : Nat) (now : Nat) (c : MsgContent)
  | callback (fromId : Int) (chatId : Int) (cbMsgId : Nat) (deliverOk : Bool) (data : String)

/-- Top-level processing of one update. -/
def handleUpdate (cfg : Config) (st : State) : Update → State × List Out
  | Update.message fromId chatId msgId now c =>
      handleMessage cfg st fromId chatId msgId now c
  | Update.callback fromId chatId cbMsgId deliverOk data =>
      handleCallback cfg st fromId chatId cbMsgId deliverOk data

/-- The module's initial state: empty maps, empty ban set, zero counters,
no edit session. -/
def initState : State :=
  ⟨[], [], [], ⟨0, 0, 0⟩, none⟩

/-- Sequential processing of a list of updates (the serverless entry point
dispatches one update at a time). -/
def run (cfg : Config) (st : State) : List Update → State
  | [] => st
  | u :: us => run cfg (handleUpdate cfg st u).1 us

/-- Whether an outbound effect is a direct send to a chat — the shape of
every moderator notification emitted by `forwardToAdmin` (a `reply` goes
back to the submitter's own chat). -/
def isDirectSend : Out → Bool
  | Out.sendMessage _ _ _ => true
  | Out.sendPhoto _ _ _ _ => true
  | Out.sendVideo _ _ _ _ => true
  | Out.sendDocument _ _ _ _ => true
  | Out.sendVoice _ _ => true
  | _ => false

/-- Sample configuration for concrete evaluations: channel `-100`,
moderator `777`. -/
def cfg0 : Config :=
  ⟨-100, 777⟩

/-- Sample state holding one pending text submission under key `7_42`. -/
def stText : State :=
  ⟨[("7_42", ⟨Kind.text, none, "hello", none⟩)], [], [], ⟨0, 0, 0⟩, none⟩

/-- Sample state holding one pending voice submission with a transcript
under key `7_42`. -/
def stVoice : State :=
  ⟨[("7_42", ⟨Kind.voice, some "F", "cap", some "the transcript"⟩)], [], [],
   ⟨0, 0, 0⟩, none⟩

/-- Sample state holding one pending photo submission under key `7_42`. -/
def stPhoto : State :=
  ⟨[("7_42", ⟨Kind.photo, some "F", "orig cap", none⟩)], [], [], ⟨0, 0, 0⟩, none⟩

/-- Sample state with an open edit session for key `7_42`, a pending text
submission, and a cooldown stamp of 1000 recorded for the moderator 777. -/
def stC9 : State :=
  ⟨[("7_42", ⟨Kind.text, none, "hello", none⟩)], [(777, 1000)], [],
   ⟨0, 0, 0⟩, some ⟨"7_42", 777, 3⟩⟩

/-- Key lookup after `mset` at the same key yields the new value. -/
theorem mget_mset_self {κ α : Type} [DecidableEq κ] (m : List (κ × α))
    (k : κ) (v : α) : mget (mset m k v) k = some v := by
  induction m with
  | nil => simp [mget, mset]
  | cons hd tl ih =>
      obtain ⟨k', v'⟩ := hd
      by_cases h : k' = k <;> simp [mget, mset, h, ih]

/-- Key lookup after `mdel` at the same key yields nothing. -/
theorem mget_mdel_self {κ α : Type} [DecidableEq κ] (m : List (κ × α))
    (k : κ) : mget (mdel m k) k = none := by
  induction m with
  | nil => simp [mget, mdel]
  | cons hd tl ih =>
      obtain ⟨k', v'⟩ := hd
      by_cases h : k' = k <;> simp [mget, mdel, h, ih]

/-- C2: if the moderator approves a pending submission and the channel
delivery fails, the handler answers a publication error, the whole state
(store and both counters) is unchanged, and the submission is still
retrievable under the same key. -/
theorem approve_delivery_failure_atomic (cfg : Config) (st : State)
    (k : String) (p : Submission) (h : mget st.pending k = some p) :
    pubAction cfg false st cfg.adminId k = (st, [Out.answerCbQuery "Ошибка публикации"]) ∧
    mget (pubAction cfg false st cfg.adminId k).1.pending k = some p := by
  unfold pubAction
  simp [isAdmin, h]

theorem approve_delivery_failure_atomic_witness :
    pubAction cfg0 false stText cfg0.adminId "7_42" =
      (stText, [Out.answerCbQuery "Ошибка публикации"]) :=
  (approve_delivery_failure_atomic cfg0 stText "7_42"
    ⟨Kind.text, none, "hello", none⟩ (by decide)).1

/-- C7: approving a text or voice submission whose transcript is present
(non-null and non-empty, the source's truthiness notion of presence)
delivers the transcript to the channel, not the caption. -/
theorem approve_publishes_transcript (cfg : Config) (st : State) (k : String)
    (p : Submission) (t : String) (h : mget st.pending k = some p)
    (ht : p.voiceText = some t) (hne : t ≠ "")
    (hk : p.type = Kind.text ∨ p.type = Kind.voice) :
    (pubAction cfg true st cfg.adminId k).2.head? =
      some (Out.sendMessage cfg.channelId (some t) []) := by
  unfold pubAction publishOuts
  rcases hk with hk | hk <;> simp [isAdmin, h, hk, ht, jsOr, hne]

theorem approve_publishes_transcript_witness :
    (pubAction cfg0 true stVoice cfg0.adminId "7_42").2.head? =
      some (Out.sendMessage cfg0.channelId (some "the transcript") []) :=
  approve_publishes_transcript cfg0 stVoice "7_42"
    ⟨Kind.voice, some "F", "cap", some "the transcript"⟩ "the transcript"
    (by decide) rfl (by decide) (Or.inr rfl)

/-- C1 counterexample: the claim says any approve/reject on a terminal or
never-existing key is a no-op reported "stale".  A moderator reject on the
never-existing key `7_42` is answered "Отклонено" (not stale) and bumps the
rejected counter; and after a successful approve of `7_42`, a further
reject on the same key still "succeeds" and bumps the counter again — so
both a terminal transition and a later reject succeed on one key. -/
theorem reject_ignores_staleness_cex :
    mget initState.pending "7_42" = none ∧
    rejAction cfg0 initState 777 "7_42" =
      ({ initState with stats := ⟨0, 0, 1⟩ },
       [Out.answerCbQuery "❌ Отклонено", Out.clearMarkup]) ∧
    (rejAction cfg0 (pubAction cfg0 true stText 777 "7_42").1 777 "7_42").1.stats =
      ⟨1, 1, 1⟩ := by
  decide

/-- C1 amended: approve is at-most-once per key — approving an absent key
is a stale no-op, and a successful approve removes the key so any further
approve is stale; but a moderator reject never checks presence: it always
deletes the key, increments the rejected counter and answers "Отклонено",
even when the key is absent or already published. -/
theorem approve_at_most_once_reject_unconditional (cfg : Config) (st : State)
    (k : String) :
    (∀ dOk, mget st.pending k = none →
       pubAction cfg dOk st cfg.adminId k = (st, [Out.answerCbQuery "Устарело"]))
  ∧ (∀ p, mget st.pending k = some p →
       mget (pubAction cfg true st cfg.adminId k).1.pending k = none)
  ∧ rejAction cfg st cfg.adminId k =
      ({ st with
          pending := mdel st.pending k,
          stats := { st.stats with rejected := st.stats.rejected + 1 } },
       [Out.answerCbQuery "❌ Отклонено", Out.clearMarkup]) := by
  refine ⟨?_, ?_, ?_⟩
  · intro dOk h
    unfold pubAction
    simp [isAdmin, h]
  · intro p h
    unfold pubAction
    simp [isAdmin, h, mget_mdel_self]
  · unfold rejAction
    simp [isAdmin]

theorem approve_at_most_once_reject_unconditional_witness :
    pubAction cfg0 true initState cfg0.adminId "7_42" =
      (initState, [Out.answerCbQuery "Устарело"]) ∧
    mget (pubAction cfg0 true stText cfg0.adminId "7_42").1.pending "7_42" = none :=
  ⟨(approve_at_most_once_reject_unconditional cfg0 initState "7_42").1 true (by decide),
   (approve_at_most_once_reject_unconditional cfg0 stText "7_42").2.1
     ⟨Kind.text, none, "hello", none⟩ (by decide)⟩

/-- C5 counterexample: the claim allows a call iff no prior timestamp is
recorded or the elapsed time exceeds the 5000 ms window.  With a recorded
timestamp of 1000 and `now = 6000` the elapsed time is exactly 5000 — it
does not exceed the window — yet `isCool` allows the call and records the
new timestamp (the source denies only when `now - last < RATE_LIMIT_MS`). -/
theorem rate_limit_boundary_allows_at_window_cex :
    (isCool [((1 : Int), 1000)] 1 6000).1 = true ∧
    mget [((1 : Int), (1000 : Nat))] 1 = some 1000 ∧
    ¬ (6000 - 1000 > RATE_LIMIT_MS) := by
  decide

/-- C5 amended: `isCool` allows the call iff no timestamp is recorded for
the identity, or the recorded timestamp is 0 (a falsy value the source
treats like no record), or at least `RATE_LIMIT_MS` has elapsed; an allowed
call records `now`, and a denied call returns false leaving the recorded
map unchanged, so the next window is still measured from the last accepted
submission. -/
theorem rate_limiter_allow_iff (cool : List (Int × Nat)) (id : Int) (now : Nat) :
    ((isCool cool id now).1 = true ↔
       mget cool id = none ∨ mget cool id = some 0 ∨
         ∃ l, mget cool id = some l ∧ RATE_LIMIT_MS ≤ now - l)
  ∧ ((isCool cool id now).1 = true → (isCool cool id now).2 = mset cool id now)
  ∧ ((isCool cool id now).1 = false → (isCool cool id now).2 = cool) := by
  refine ⟨?_, ?_, ?_⟩
  · cases h : mget cool id with
    | none => simp [isCool, h]
    | some l =>
        simp only [isCool, h]
        split <;> simp_all [RATE_LIMIT_MS] <;> omega
  · cases h : mget cool id with
    | none => simp [isCool, h]
    | some l =>
        simp only [isCool, h]
        split <;> simp_all
  · cases h : mget cool id with
    | none => simp [isCool, h]
    | some l =>
        simp only [isCool, h]
        split <;> simp_all

theorem rate_limiter_allow_iff_witness :
    (isCool [((1 : Int), 1000)] 1 400).1 = false ∧
    (isCool [((1 : Int), 1000)] 1 400).2 = [((1 : Int), 1000)] :=
  ⟨by decide,
   (rate_limiter_allow_iff [((1 : Int), 1000)] 1 400).2.2 (by decide)⟩

/-- C3: the program cannot publish the corrected text for any kind of
submission, because the first-registered `bot.on('text')` handler consumes
every text message without calling `next()`, so the moderator's
replacement text never reaches the `awaitEdit` branch.  Evaluated at the
failing input — a pending text submission `7_42` ("hello"); the moderator
presses the edit button, sends "corrected text", then approves — the
faithful dispatch publishes "hello" to the channel, stores the moderator's
reply as a NEW pending submission `9_777`, and leaves the edit session
open; "corrected text" is never delivered. -/
theorem edit_reply_swallowed_by_intake :
    ((handleUpdate cfg0
        ((handleUpdate cfg0
            ((handleUpdate cfg0 stText
                (Update.callback 777 777 3 true "edit_7_42")).1)
            (Update.message 777 777 9 1000 (MsgContent.text "corrected text"))).1)
        (Update.callback 777 777 3 true "pub_7_42")).2).head? =
      some (Out.sendMessage cfg0.channelId (some "hello") []) ∧
    ((handleUpdate cfg0
        ((handleUpdate cfg0 stText
            (Update.callback 777 777 3 true "edit_7_42")).1)
        (Update.message 777 777 9 1000 (MsgContent.text "corrected text"))).1).awaitEdit =
      some ⟨"7_42", 777, 3⟩ ∧
    mget ((handleUpdate cfg0
        ((handleUpdate cfg0 stText
            (Update.callback 777 777 3 true "edit_7_42")).1)
        (Update.message 777 777 9 1000 (MsgContent.text "corrected text"))).1).pending
      "9_777" = some ⟨Kind.text, none, "corrected text", none⟩ ∧
    "hello" ≠ "corrected text" := by
  decide

/-- C4: in the program, the moderator's next text message never destroys
an open edit session — the first-registered `bot.on('text')` handler
consumes it as ordinary intake.  Evaluated at the failing input — an open
session for the absent key `7_42`, the moderator sends "corrected text" —
the faithful dispatch replies with the thanks acknowledgement, stores the
text as a NEW pending submission `9_777`, notifies the moderator about it,
and leaves `awaitEdit` open: neither branch of the claim (destroy after
applying, or silently discard and close) occurs. -/
theorem open_session_text_is_new_submission :
    handleUpdate cfg0 { initState with awaitEdit := some ⟨"7_42", 777, 3⟩ }
        (Update.message 777 777 9 1000 (MsgContent.text "corrected text")) =
      ({ initState with
          pending := [("9_777", ⟨Kind.text, none, "corrected text", none⟩)],
          cooldown := [(777, 1000)],
          awaitEdit := some ⟨"7_42", 777, 3⟩ },
       [Out.reply thanksText,
        Out.sendMessage 777 (some (header "9_777" none "corrected text"))
          (kb3 "9_777")]) := by
  decide

/-- C6: an inbound message from a banned identity leaves the whole state
unchanged — nothing is stored in `pending` and the rate-limit map is not
touched, because the ban check runs before `isCool` in the gate — and no
direct send (the shape of every moderator notification) is emitted. -/
theorem banned_submitter_no_effect (cfg : Config) (st : State)
    (fromId chatId : Int) (msgId now : Nat) (c : MsgContent)
    (hb : sHas st.banned fromId = true) :
    (handleMessage cfg st fromId chatId msgId now c).1 = st ∧
    ∀ o ∈ (handleMessage cfg st fromId chatId msgId now c).2,
      isDirectSend o = false := by
  unfold handleMessage
  by_cases hs : isStartCmd c = true
  · simp [hs, isDirectSend]
  · simp only [Bool.not_eq_true] at hs
    simp [hs, hb]

theorem banned_submitter_no_effect_witness :
    (handleMessage cfg0 { initState with banned := [5] } 5 5 1 0
        (MsgContent.text "hi")).1 =
      { initState with banned := [5] } :=
  (banned_submitter_no_effect cfg0 { initState with banned := [5] } 5 5 1 0
    (MsgContent.text "hi") (by decide)).1

/-- Auxiliary for C8: if no poll within the remaining fuel reports
`parsed`, the polling loop falls through with the empty string. -/
theorem sttLoop_all_unparsed (infoAt : Nat → PollInfo) :
    ∀ fuel i, (∀ j, i ≤ j → j < i + fuel → (infoAt j).parsed = false) →
      sttLoop infoAt i fuel = "" := by
  intro fuel
  induction fuel with
  | zero => intro i _; rfl
  | succ n ih =>
      intro i h
      have hp : (infoAt i).parsed = false := h i (le_refl i) (by omega)
      simp only [sttLoop, hp]
      simp only [Bool.false_eq_true, if_false]
      exact ih (i + 1) (fun j hj1 hj2 => h j (by omega) (by omega))

/-- C8: the transcription adapter is total (its catch-all resolves every
provider failure to the sentinel `'<ошибка распознавания>'`); exhausting
all 20 polling attempts resolves to `'<не распознано>'`; and for every
provider behaviour the voice handler still stores the submission with the
`stt` result as its transcript and still emits the moderator notification
carrying the approve/reject/edit keyboard. -/
theorem stt_total_and_voice_flow (cfg : Config) (st : State) (fromId : Int)
    (msgId : Nat) (fileId : String) (cap : Option String) (b : SttBehavior) :
    stt SttBehavior.throws = "<ошибка распознавания>"
  ∧ (∀ infoAt, (∀ i, i < 20 → (infoAt i).parsed = false) →
       stt (SttBehavior.responds infoAt) = "<не распознано>")
  ∧ mget (voiceHandler cfg st fromId msgId fileId cap b).1.pending
      (mkKey msgId fromId) =
      some ⟨Kind.voice, some fileId, jsOr cap "", some (stt b)⟩
  ∧ Out.sendMessage cfg.adminId
      (some (header (mkKey msgId fromId) (some (stt b)) (jsOr cap "") ++
        "(голосовое ниже)"))
      (kb3 (mkKey msgId fromId)) ∈
      (voiceHandler cfg st fromId msgId fileId cap b).2 := by
  refine ⟨rfl, ?_, ?_, ?_⟩
  · intro infoAt h
    simp only [stt]
    rw [sttLoop_all_unparsed infoAt 20 0 (fun j _ hj => h j (by omega))]
    rfl
  · unfold voiceHandler forwardToAdmin
    simp [mget_mset_self]
  · unfold voiceHandler forwardToAdmin
    simp

theorem stt_total_and_voice_flow_witness :
    stt SttBehavior.throws = "<ошибка распознавания>" ∧
    stt (SttBehavior.responds (fun _ => ⟨false, none⟩)) = "<не распознано>" ∧
    mget (voiceHandler cfg0 initState 42 7 "F" none SttBehavior.throws).1.pending
        (mkKey 7 42) =
      some ⟨Kind.voice, some "F", jsOr none "", some (stt SttBehavior.throws)⟩ :=
  ⟨(stt_total_and_voice_flow cfg0 initState 42 7 "F" none SttBehavior.throws).1,
   (stt_total_and_voice_flow cfg0 initState 42 7 "F" none SttBehavior.throws).2.1
     (fun _ => ⟨false, none⟩) (fun _ _ => rfl),
   (stt_total_and_voice_flow cfg0 initState 42 7 "F" none SttBehavior.throws).2.2.1⟩

/-- C9 counterexample: `bot.start` is registered BEFORE the `bot.use`
ban/rate-limit gate, so a `/start` message from a banned identity is
answered with the greeting instead of being silently dropped — it reaches a
handler without passing through the gate. -/
theorem start_command_bypasses_gate_cex :
    sHas ({ initState with banned := [5] } : State).banned 5 = true ∧
    handleMessage cfg0 { initState with banned := [5] } 5 5 1 0
        (MsgContent.text "/start") =
      ({ initState with banned := [5] },
       [Out.reply "Присылай мысль – текст, фото, видео или голос!"]) := by
  decide

/-- C9 amended: every inbound message OTHER than the `/start` command
passes through the ban-then-rate-limit gate before any handler runs —
banned senders are silently dropped, rate-limited senders get only the
cooldown notice with no other state change; in particular a moderator
edit-reply text arriving within `RATE_LIMIT_MS` of the moderator's
previous accepted message is answered with the cooldown notice and the
state — including the open `awaitEdit` session and the pending store — is
unchanged, so the edit is not applied and the session is not consumed. -/
theorem gate_before_handlers_except_start (cfg : Config) (st : State) :
    (∀ fromId chatId msgId now c, isStartCmd c = false →
       sHas st.banned fromId = true →
       handleMessage cfg st fromId chatId msgId now c = (st, []))
  ∧ (∀ fromId chatId msgId now c, isStartCmd c = false →
       sHas st.banned fromId = false →
       (isCool st.cooldown fromId now).1 = false →
       handleMessage cfg st fromId chatId msgId now c =
         (st, [Out.reply "⏎ Подождите 5 сек."]))
  ∧ (∀ chatId msgId now t l, isStartCmd (MsgContent.text t) = false →
       sHas st.banned cfg.adminId = false →
       mget st.cooldown cfg.adminId = some l → l ≠ 0 →
       now - l < RATE_LIMIT_MS →
       handleMessage cfg st cfg.adminId chatId msgId now (MsgContent.text t) =
         (st, [Out.reply "⏎ Подождите 5 сек."])) := by
  refine ⟨?_, ?_, ?_⟩
  · intro fromId chatId msgId now c hs hb
    unfold handleMessage
    simp [hs, hb]
  · intro fromId chatId msgId now c hs hb hc
    unfold handleMessage
    simp [hs, hb, hc]
  · intro chatId msgId now t l hs hb hl h0 hw
    have hc : (isCool st.cooldown cfg.adminId now).1 = false := by
      unfold isCool
      simp [hl, h0, hw]
    unfold handleMessage
    simp [hs, hb, hc]

theorem gate_before_handlers_except_start_witness :
    handleMessage cfg0 stC9 cfg0.adminId 777 9 2000 (MsgContent.text "fix it") =
      (stC9, [Out.reply "⏎ Подождите 5 сек."]) :=
  (gate_before_handlers_except_start cfg0 stC9).2.2 777 9 2000 "fix it" 1000
    (by decide) (by decide) (by decide) (by decide) (by decide)

/-- Auxiliary for C10: one update step preserves equality of the `total`
and `published` counters — intake touches no counter, a successful publish
bumps both, and reject bumps only `rejected`. -/
theorem handleUpdate_total_eq_published (cfg : Config) (st : State)
    (u : Update) (h : st.stats.total = st.stats.published) :
    (handleUpdate cfg st u).1.stats.total =
      (handleUpdate cfg st u).1.stats.published := by
  cases u with
  | message fromId chatId msgId now c =>
      unfold handleUpdate handleMessage
      by_cases hs : isStartCmd c = true
      · simp [hs, h]
      · simp only [Bool.not_eq_true] at hs
        by_cases hb : sHas st.banned fromId = true
        · simp [hs, hb, h]
        · simp only [Bool.not_eq_true] at hb
          by_cases hc : (isCool st.cooldown fromId now).1 = true
          · cases c <;>
              simp [hs, hb, hc, dispatchContent, textHandler, photoHandler,
                    videoHandler, documentHandler, voiceHandler, forwardToAdmin, h]
          · simp only [Bool.not_eq_true] at hc
            simp [hs, hb, hc, h]
  | callback fromId chatId cbMsgId dOk data =>
      simp only [handleUpdate, handleCallback]
      split
      · simp only [pubAction]
        split
        · cases hm : mget st.pending (String.drop data 4) with
          | none => simp [hm, h]
          | some p => cases dOk <;> simp [hm, h]
        · simp [h]
      · split
        · simp only [rejAction]
          split <;> simp [h]
        · split
          · simp only [editAction]
            split
            · cases hm : mget st.pending (String.drop data 5) <;> simp [hm, h]
            · simp [h]
          · simp [h]

/-- Auxiliary for C10: the step-invariant extended to any update
sequence. -/
theorem run_total_eq_published (cfg : Config) :
    ∀ us st, st.stats.total = st.stats.published →
      (run cfg st us).stats.total = (run cfg st us).stats.published := by
  intro us
  induction us with
  | nil => intro st h; exact h
  | cons u us ih =>
      intro st h
      simp only [run]
      exact ih _ (handleUpdate_total_eq_published cfg st u h)

/-- C10: in every state reachable from the initial state, the `total`
counter equals the `published` counter (both are bumped exactly by a
successful publish and by nothing else); and the stats report is a
function of `published`, `rejected` and the ban-set size only — the
`total` counter never influences (so never appears in) the report. -/
theorem total_equals_published_and_report_fields :
    (∀ cfg us,
       (run cfg initState us).stats.total = (run cfg initState us).stats.published)
  ∧ (∀ cfg st₁ st₂ fromId,
       st₁.stats.published = st₂.stats.published →
       st₁.stats.rejected = st₂.stats.rejected →
       st₁.banned.length = st₂.banned.length →
       statsCommand cfg st₁ fromId = statsCommand cfg st₂ fromId) := by
  constructor
  · intro cfg us
    exact run_total_eq_published cfg us initState rfl
  · intro cfg st₁ st₂ fromId h1 h2 h3
    unfold statsCommand
    rw [h1, h2, h3]

theorem total_equals_published_and_report_fields_witness :
    (run cfg0 initState [Update.callback 777 777 1 true "rej_7_42"]).stats.total =
      (run cfg0 initState [Update.callback 777 777 1 true "rej_7_42"]).stats.published ∧
    statsCommand cfg0 { initState with stats := ⟨5, 0, 0⟩ } 777 =
      statsCommand cfg0 initState 777 :=
  ⟨total_equals_published_and_report_fields.1 cfg0
     [Update.callback 777 777 1 true "rej_7_42"],
   total_equals_published_and_report_fields.2 cfg0
     { initState with stats := ⟨5, 0, 0⟩ } initState 777 rfl rfl rfl⟩
